import Mathlib

/- Verification of the client-side session logic of the AuditAI frontend
   (src/frontend/src/app/page.tsx).  The update log, the SSE stream frame
   handler, the demo fallback generator and the submit flow are embedded as
   pure functions over explicit state; timer callbacks and stream frames
   become events processed one at a time, matching the single-threaded
   browser event loop. -/

/-- One entry of the activity log, mirroring the AgentUpdate interface of
page.tsx (agent, status, message, timestamp). -/
structure AgentUpdate where
  agent : String
  status : String
  message : String
  timestamp : String
deriving DecidableEq

/-- State of the update log: the rendered list (updates state) plus the
dedup key set (emittedUpdatesRef, a Set of strings modelled as a list). -/
structure LogState where
  updates : List AgentUpdate
  emitted : List String
deriving DecidableEq

def emptyLog : LogState := ⟨[], []⟩

/-- The dedup key built by pushUpdate: agent, status and message joined
by pipe characters. -/
def updateKey (agent status message : String) : String :=
  agent ++ "|" ++ status ++ "|" ++ message

/-- pushUpdate from page.tsx: drop the update when its key was already
emitted, otherwise record the key and append the entry to the log. -/
def pushUpdate (L : LogState) (agent status message ts : String) : LogState :=
  let key := updateKey agent status message
  if key ∈ L.emitted then L
  else { updates := L.updates ++ [⟨agent, status, message, ts⟩], emitted := key :: L.emitted }

/-- A string that does not contain the pipe separator used by updateKey. -/
def noPipe (s : String) : Prop := '|' ∉ s.data

instance (s : String) : Decidable (noPipe s) := by
  unfold noPipe; infer_instance

lemma data_append (a b : String) : (a ++ b).data = a.data ++ b.data := rfl

lemma string_eq_of_data {a b : String} (h : a.data = b.data) : a = b := by
  cases a; cases b; exact congrArg String.mk (by simpa using h)

/-- Splitting at a separator character absent from both left parts is
unambiguous. -/
lemma sep_split {xs ys r r2 : List Char} (hx : '|' ∉ xs) (hy : '|' ∉ ys)
    (h : xs ++ '|' :: r = ys ++ '|' :: r2) : xs = ys ∧ r = r2 := by
  induction xs generalizing ys with
  | nil =>
    cases ys with
    | nil => simpa using h
    | cons c t =>
      simp only [List.nil_append, List.cons_append, List.cons.injEq] at h
      exact absurd (h.1 ▸ List.mem_cons_self c t) hy
  | cons c t ih =>
    cases ys with
    | nil =>
      simp only [List.nil_append, List.cons_append, List.cons.injEq] at h
      exact absurd (h.1.symm ▸ List.mem_cons_self c t) hx
    | cons c2 t2 =>
      simp only [List.cons_append, List.cons.injEq] at h
      obtain ⟨rfl, h2⟩ := h
      have := ih (fun hm => hx (List.mem_cons_of_mem _ hm))
        (fun hm => hy (List.mem_cons_of_mem _ hm)) h2
      exact ⟨by rw [this.1], this.2⟩

lemma updateKey_data (a s m : String) :
    (updateKey a s m).data = a.data ++ '|' :: (s.data ++ '|' :: m.data) := by
  simp [updateKey, data_append, List.append_assoc]

/-- The dedup key determines the (agent, status, message) triple as long as
agent and status contain no pipe character; all call sites in page.tsx use
fixed pipe-free agent and status strings. -/
lemma updateKey_inj {a s m a2 s2 m2 : String} (ha : noPipe a) (ha2 : noPipe a2)
    (hs : noPipe s) (hs2 : noPipe s2)
    (h : updateKey a s m = updateKey a2 s2 m2) : a = a2 ∧ s = s2 ∧ m = m2 := by
  have hd : (updateKey a s m).data = (updateKey a2 s2 m2).data := by rw [h]
  rw [updateKey_data, updateKey_data] at hd
  obtain ⟨h1, h2⟩ := sep_split ha ha2 hd
  obtain ⟨h3, h4⟩ := sep_split hs hs2 h2
  exact ⟨string_eq_of_data h1, string_eq_of_data h3, string_eq_of_data h4⟩

/-- Well-formedness of a log state: the emitted key set corresponds (over
pipe-free agents and statuses) to the triples present in the list, and every
recorded entry carries a pipe-free agent and status. -/
def LogWf (L : LogState) : Prop :=
  (∀ a s m, noPipe a → noPipe s →
    (updateKey a s m ∈ L.emitted ↔
      ∃ u ∈ L.updates, u.agent = a ∧ u.status = s ∧ u.message = m)) ∧
  (∀ u ∈ L.updates, noPipe u.agent ∧ noPipe u.status)

lemma logWf_empty : LogWf emptyLog := by
  constructor
  · intro a s m _ _
    simp [emptyLog]
  · intro u hu
    simp [emptyLog] at hu

lemma pushUpdate_wf {L : LogState} (a s m ts : String) (ha : noPipe a)
    (hs : noPipe s) (h : LogWf L) : LogWf (pushUpdate L a s m ts) := by
  unfold pushUpdate
  by_cases hk : updateKey a s m ∈ L.emitted
  · simpa [hk] using h
  · simp only [hk, if_false]
    constructor
    · intro a2 s2 m2 ha2 hs2
      constructor
      · intro hm
        rcases List.mem_cons.mp hm with heq | hmem
        · obtain ⟨rfl, rfl, rfl⟩ := updateKey_inj ha2 ha hs2 hs heq
          exact ⟨⟨a2, s2, m2, ts⟩, by simp⟩
        · obtain ⟨u, hu, h1, h2, h3⟩ := ((h.1 a2 s2 m2 ha2 hs2).mp hmem)
          exact ⟨u, by simp [hu], h1, h2, h3⟩
      · rintro ⟨u, hu, h1, h2, h3⟩
        rcases List.mem_append.mp hu with hmem | hnew
        · exact List.mem_cons_of_mem _ ((h.1 a2 s2 m2 ha2 hs2).mpr ⟨u, hmem, h1, h2, h3⟩)
        · simp only [List.mem_singleton] at hnew
          subst hnew
          simp only [← h1, ← h2, ← h3]
          exact List.mem_cons_self _ _
    · intro u hu
      rcases List.mem_append.mp hu with hmem | hnew
      · exact h.2 u hmem
      · simp only [List.mem_singleton] at hnew
        subst hnew
        exact ⟨ha, hs⟩

/-- After a push with a pipe-free agent and status, the log does contain an
entry with that triple (either it was just appended, or a duplicate was
already there). -/
lemma pushUpdate_mem {L : LogState} (a s m ts : String) (ha : noPipe a)
    (hs : noPipe s) (h : LogWf L) :
    ∃ u ∈ (pushUpdate L a s m ts).updates,
      u.agent = a ∧ u.status = s ∧ u.message = m := by
  have h2 := pushUpdate_wf a s m ts ha hs h
  apply (h2.1 a s m ha hs).mp
  unfold pushUpdate
  by_cases hk : updateKey a s m ∈ L.emitted
  · simp [hk]
  · simp [hk]

/-- Pushing the same (agent, status, message) triple a second time is a
no-op, whatever the timestamps: the key is in the emitted set after the
first push. -/
lemma pushUpdate_idem (L : LogState) (a s m t t2 : String) :
    pushUpdate (pushUpdate L a s m t) a s m t2 = pushUpdate L a s m t := by
  unfold pushUpdate
  by_cases hk : updateKey a s m ∈ L.emitted
  · simp [hk]
  · simp [hk]

/-- Internal dedup invariant used for the pairwise-distinct property: every
recorded entry has its key in the emitted set, and the recorded keys are
pairwise distinct. -/
def DedupWf (L : LogState) : Prop :=
  (∀ u ∈ L.updates, updateKey u.agent u.status u.message ∈ L.emitted) ∧
  (L.updates.map (fun u => updateKey u.agent u.status u.message)).Nodup

lemma dedupWf_empty : DedupWf emptyLog := by
  constructor
  · intro u hu; simp [emptyLog] at hu
  · simp [emptyLog]

lemma pushUpdate_dedupWf {L : LogState} (a s m ts : String) (h : DedupWf L) :
    DedupWf (pushUpdate L a s m ts) := by
  unfold pushUpdate
  by_cases hk : updateKey a s m ∈ L.emitted
  · simpa [hk] using h
  · simp only [hk, if_false]
    constructor
    · intro u hu
      rcases List.mem_append.mp hu with hmem | hnew
      · exact List.mem_cons_of_mem _ (h.1 u hmem)
      · simp only [List.mem_singleton] at hnew
        subst hnew
        exact List.mem_cons_self _ _
    · rw [List.map_append, List.nodup_append]
      refine ⟨h.2, by simp, ?_⟩
      intro k hkm hk2
      simp only [List.map_cons, List.map_nil, List.mem_singleton] at hk2
      subst hk2
      obtain ⟨u, hu, hE⟩ := List.mem_map.mp hkm
      exact hk (hE ▸ h.1 u hu)

/-- A sequence of pushUpdate calls starting from the empty log; the operand
is the (agent, status, message, timestamp) quadruple. -/
def runPushes (ops : List (String × String × String × String)) : LogState :=
  ops.foldl (fun L q => pushUpdate L q.1 q.2.1 q.2.2.1 q.2.2.2) emptyLog

lemma runPushes_dedupWf (ops : List (String × String × String × String)) :
    DedupWf (runPushes ops) := by
  unfold runPushes
  generalize hL : emptyLog = L
  have hWf : DedupWf L := hL ▸ dedupWf_empty
  clear hL
  induction ops generalizing L with
  | nil => simpa using hWf
  | cons q rest ih => exact ih _ (pushUpdate_dedupWf _ _ _ _ hWf)

/-- Claim C4: within one session, appending an update whose
(agent, status, message) triple equals that of an already appended one
leaves the log unchanged regardless of the timestamps, and consequently any
sequence of pushUpdate calls from a fresh log yields a list in which each
triple occurs at most once. -/
theorem pushUpdate_dedup_idempotent
    (ops : List (String × String × String × String))
    (a s m t t2 : String) :
    pushUpdate (pushUpdate (runPushes ops) a s m t) a s m t2 =
      pushUpdate (runPushes ops) a s m t ∧
    (runPushes ops).updates.Pairwise
      (fun u v => ¬(u.agent = v.agent ∧ u.status = v.status ∧ u.message = v.message)) := by
  refine ⟨pushUpdate_idem _ _ _ _ _ _, ?_⟩
  have hp : ((runPushes ops).updates.map
      (fun u => updateKey u.agent u.status u.message)).Nodup :=
    (runPushes_dedupWf ops).2
  rw [List.Nodup, List.pairwise_map] at hp
  refine hp.imp ?_
  intro u v hne ⟨h1, h2, h3⟩
  exact hne (by rw [h1, h2, h3])

/- ===== String helpers (kernel-friendly replacements for the JS string
   operations used by page.tsx) ===== -/

/-- Character-list version of a startsWith test. -/
def isPrefixChars : List Char → List Char → Bool
  | [], _ => true
  | _ :: _, [] => false
  | a :: as, b :: bs => a == b && isPrefixChars as bs

/-- JS String.includes: does the pattern occur as a contiguous substring. -/
def hasInfix (pat : List Char) : List Char → Bool
  | [] => pat.isEmpty
  | c :: rest => isPrefixChars pat (c :: rest) || hasInfix pat rest

def strContains (s pat : String) : Bool := hasInfix pat.data s.data

def strStartsWith (s pre : String) : Bool := isPrefixChars pre.data s.data

def strEndsWith (s suf : String) : Bool :=
  isPrefixChars suf.data.reverse s.data.reverse

/-- JS String.toLowerCase restricted to the ASCII characters that appear in
the heuristics of page.tsx. -/
def lowerStr (s : String) : String := ⟨s.data.map Char.toLower⟩

/-- JS String.substring(0, n). -/
def takeStr (s : String) (n : Nat) : String := ⟨s.data.take n⟩

/-- JS Array.join / String join with a separator (empty list gives ""). -/
def joinSep (sep : String) : List String → String
  | [] => ""
  | [x] => x
  | x :: xs => x ++ sep ++ joinSep sep xs

/- ===== Demo fallback generator (simulateAgentUpdates) ===== -/

/-- The submitted file as the fallback heuristics see it: name, MIME type
and (for non-image files) its text content. -/
structure FileModel where
  name : String
  mime : String
  content : String
deriving DecidableEq

/-- \d of the amount regex: an ASCII digit. -/
def isDigitChar (c : Char) : Bool := c.isDigit

/-- The [:\s] class of the amount regex: a colon or (ASCII) whitespace.
The Unicode space characters matched by the JS \s class cannot occur in the
receipt texts considered here. -/
def isSepChar (c : Char) : Bool :=
  c == ':' || c == ' ' || c == '\t' || c == '\n' || c == '\r' ||
  c == Char.ofNat 11 || c == Char.ofNat 12

/-- [\d,] of the amount regex. -/
def isDigitComma (c : Char) : Bool := c.isDigit || c == ','

/-- Try to match the regex Total[:\s]+\$?([\d,]+\.?\d*) (case-insensitive)
at the head of the character list, returning the capture group.  The
character classes of the pattern are pairwise disjoint, so the greedy
backtracking search of the JS engine reduces to this deterministic scan. -/
def totalCapAt : List Char → Option (List Char)
  | c1 :: c2 :: c3 :: c4 :: c5 :: rest =>
    if c1.toLower == 't' && c2.toLower == 'o' && c3.toLower == 't' &&
       c4.toLower == 'a' && c5.toLower == 'l' then
      let seps := rest.takeWhile isSepChar
      let r2 := rest.dropWhile isSepChar
      if seps.isEmpty then none
      else
        let r3 := match r2 with
          | '$' :: t => t
          | _ => r2
        let digs := r3.takeWhile isDigitComma
        let r4 := r3.dropWhile isDigitComma
        if digs.isEmpty then none
        else
          match r4 with
          | '.' :: r5 => some (digs ++ '.' :: r5.takeWhile isDigitChar)
          | _ => some digs
    else none
  | _ => none

/-- Leftmost match of the amount regex: fileContent.match(/Total[:\s]+\$?([\d,]+\.?\d*)/i),
returning the first capture group. -/
def findTotalCap : List Char → Option (List Char)
  | [] => none
  | c :: rest =>
    match totalCapAt (c :: rest) with
    | some cap => some cap
    | none => findTotalCap rest

/-- JS String.replace(',', ''): remove the first comma only. -/
def removeFirstComma : List Char → List Char
  | [] => []
  | c :: rest => if c == ',' then rest else c :: removeFirstComma rest

def digitsToNat (l : List Char) : Nat :=
  l.foldl (fun n c => 10 * n + (c.toNat - '0'.toNat)) 0

/-- JS parseFloat restricted to the digit-leading strings produced by the
amount extraction (leading digits, optional fraction); none models NaN. -/
def parseFloatQ (s : String) : Option ℚ :=
  let ip := s.data.takeWhile isDigitChar
  let rest := s.data.dropWhile isDigitChar
  if ip.isEmpty then none
  else
    let frac := match rest with
      | '.' :: t => t.takeWhile isDigitChar
      | _ => []
    some ((digitsToNat ip : ℚ) + (digitsToNat frac : ℚ) / ((10 : ℚ) ^ frac.length))

/-- JS comparison parseFloat(x) > b: false when NaN. -/
def jsGt (x : Option ℚ) (b : ℚ) : Bool :=
  match x with
  | some q => decide (b < q)
  | none => false

/-- JS comparison parseFloat(x) < b: false when NaN. -/
def jsLt (x : Option ℚ) (b : ℚ) : Bool :=
  match x with
  | some q => decide (q < b)
  | none => false

/-- The local values computed at the start of simulateAgentUpdates:
classification flags, extracted amount, merchant, category and policy
outcome. -/
structure SimPlan where
  isStarbucks : Bool
  isUber : Bool
  isBar : Bool
  isStaples : Bool
  amount : String
  merchant : String
  category : String
  policyResult : String
  policyMessage : String
deriving DecidableEq

/-- The classification and amount extraction section of simulateAgentUpdates
(fileName is already lowercased, fileContent is empty for image files). -/
def simulateClassify (isImage : Bool) (fileName fileContent : String) : SimPlan :=
  let isStarbucks := strContains fileName "starbucks" ||
    strContains fileContent "STARBUCKS" || strContains fileContent "Starbucks"
  let isUber := strContains fileName "uber" || strContains fileName "taxi" ||
    strContains fileContent "UBER" || strContains fileContent "Uber"
  let isBar := strContains fileName "bar" || strContains fileName "alcohol" ||
    strContains fileContent "BAR" || strContains fileContent "WINE" ||
    strContains fileContent "BEER" || strContains fileContent "VODKA" ||
    strContains fileContent "Alcohol"
  let isStaples := strContains fileName "staples" || strContains fileName "office" ||
    strContains fileContent "STAPLES" || strContains fileContent "Staples"
  let amount :=
    match findTotalCap fileContent.data with
    | some cap => (⟨removeFirstComma cap⟩ : String)
    | none =>
      if isImage then
        if isStarbucks then "25.55"
        else if isUber then "39.53"
        else if isBar then "93.74"
        else if isStaples then "102.84"
        else "45.00"
      else "0.00"
  let mcpm : String × String × String × String :=
    if isStarbucks then
      if jsGt (parseFloatQ amount) 50 then
        ("Starbucks", "Meals & Refreshments", "flagged",
          "⚠️ Amount exceeds meal guideline ($50 limit). Requires manager approval.")
      else if jsLt (parseFloatQ amount) 30 then
        ("Starbucks", "Meals & Refreshments", "approved",
          "✅ Within team meal limit ($50). Business purpose documented. Citations: Policy §2.2")
      else
        ("Starbucks", "Meals & Refreshments", "review",
          "⚠️ Borderline amount. Recommend adding attendee list for approval.")
    else if isUber then
      ("Uber", "Transportation", "approved",
        "✅ Within taxi limit ($75). Business purpose valid. Citations: Policy §3.1")
    else if isBar then
      ("Bar/Restaurant", "Meals", "rejected",
        "❌ **POLICY VIOLATION** - Alcoholic beverages detected. Per Policy §6.1: \"Alcohol NOT reimbursable under any circumstances\"")
    else if isStaples then
      ("Staples", "Office Supplies", "approved",
        "✅ Office supplies approved. Within $500 threshold. Citations: Policy §5.1")
    else
      ("Unknown", "General", "approved", "✅ Compliant with company policy.")
  ⟨isStarbucks, isUber, isBar, isStaples, amount, mcpm.1, mcpm.2.1, mcpm.2.2.1, mcpm.2.2.2⟩

/-- Whether the file counts as an image: its MIME type begins with image/
or its lowercased name ends in one of the image extensions
(jpg, jpeg, png, gif, webp). -/
def isImageFile (f : FileModel) : Bool :=
  strStartsWith f.mime "image/" ||
  ([".jpg", ".jpeg", ".png", ".gif", ".webp"].any (fun e => strEndsWith (lowerStr f.name) e))

/-- The plan simulateAgentUpdates derives from the submitted file: content is
read only for non-image files. -/
def simulatePlan (f : FileModel) : SimPlan :=
  let fileName := lowerStr f.name
  let isImage := isImageFile f
  let fileContent := if isImage then "" else f.content
  simulateClassify isImage fileName fileContent

/-- One scheduled entry of the fallback timeline (the steps array). -/
structure DemoStep where
  agent : String
  status : String
  message : String
  delay : Nat
deriving DecidableEq

/-- The steps array of simulateAgentUpdates.  The Math.random confidence
jitter of the final approved message (an integer 0..4) is passed in as an
explicit parameter. -/
def simulateSteps (isImage : Bool) (p : SimPlan) (jitter : Fin 5) : List DemoStep :=
  [ ⟨"Extraction Agent", "processing",
      (if isImage then "🔍 Using Gemini 2.5 Flash Preview to analyze receipt image..."
       else "🔍 Processing receipt text with Gemini 2.5 Flash Preview..."), 1000⟩,
    ⟨"Extraction Agent", "complete",
      (if isImage then
        "✅ Vision analysis complete: Merchant=\"" ++ p.merchant ++ "\", Amount=$" ++
          p.amount ++ ", Category=\"" ++ p.category ++ "\""
       else
        "✅ Extracted: Merchant=\"" ++ p.merchant ++ "\", Amount=$" ++ p.amount ++
          ", Category=\"" ++ p.category ++ "\""), 3500⟩,
    ⟨"Policy Agent", "processing",
      "📋 Checking compliance using ADK + Gemini 2.5 Flash-Lite Preview...", 4500⟩,
    ⟨"Policy Agent", "complete", p.policyMessage, 7000⟩,
    ⟨"Anomaly Agent", "processing",
      "🔎 Scanning for duplicates, fraud patterns, suspicious amounts...", 7500⟩,
    ⟨"Anomaly Agent", "complete",
      (if p.isBar then "⚠️ High-risk category detected (alcohol). Flagged for review."
       else "✅ No anomalies detected. Transaction appears legitimate."), 9000⟩,
    ⟨"Remediation Agent", "processing", "🛠️ Checking if any remediation needed...", 9500⟩,
    ⟨"Remediation Agent", "complete",
      (if p.policyResult == "rejected" then
        "💡 Recommendation: Separate food items ($30) from alcohol ($42). Resubmit food portion only."
       else if p.policyResult == "review" then
        "💡 Recommendation: Add meeting attendees list and agenda to support approval."
       else "✅ No issues found. Approved for reimbursement."), 10500⟩,
    ⟨"Synthesis Agent", "processing",
      "📊 Aggregating findings and generating final verdict...", 11000⟩,
    ⟨"Synthesis Agent", "complete",
      (if p.policyResult == "rejected" then
        "❌ **REJECTED** - Policy violation detected. Amount: $" ++ p.amount ++
          ". Requires remediation."
       else if p.policyResult == "review" then
        "⚠️ **NEEDS REVIEW** - Additional documentation required. Amount: $" ++
          p.amount ++ "."
       else
        "🎉 **APPROVED** - All checks passed. Amount: $" ++ p.amount ++
          ". Confidence: " ++ toString (95 + jitter.val) ++ "%"), 13000⟩ ]

/-- The full fallback timeline derived from the submitted file. -/
def simulateAgentUpdates (f : FileModel) (jitter : Fin 5) : List DemoStep :=
  simulateSteps (isImageFile f) (simulatePlan f) jitter

/- ===== Session controller (handleSubmit / startRealTimeStream) ===== -/

/-- The parsed data object of one SSE frame, with the fields the handler
reads.  Stage findings are carried as options; the numeric formatting done
by formatCurrency on extraction.total_amount is abstracted as the already
formatted string, since no behavior below depends on it. -/
structure ExtractionFindings where
  merchant : Option String
  amountFmt : String
  category : Option String
deriving DecidableEq

structure PolicyFindings where
  compliant : Bool
  reasoning : Option String
deriving DecidableEq

structure AnomalyFindings where
  anomaliesDetected : Bool
  anomalies : Option (List String)
  riskLevel : Option String
deriving DecidableEq

structure RemediationFindings where
  needsRemediation : Bool
  recommendations : List String
deriving DecidableEq

structure StreamData where
  status : Option String
  error : Option String
  finalStatus : Option String
  synthesisSummary : Option String
  extraction : Option ExtractionFindings
  policy : Option PolicyFindings
  anomaly : Option AnomalyFindings
  remediation : Option RemediationFindings
deriving DecidableEq

def emptyData : StreamData := ⟨none, none, none, none, none, none, none, none⟩

/-- JS truthiness of an optional string (undefined and "" are falsy). -/
def optTruthy : Option String → Bool
  | some s => !(s == "")
  | none => false

/-- The full client session state of page.tsx: the update log, the loading
and error React state, the mode flags (demoModeRef, hasRealUpdatesRef), the
EventSource open flag, whether simulateAgentUpdates has been scheduled, and
a ghost counter of how many times the fallback generator was started (it is
incremented exactly where the code schedules simulateAgentUpdates and does
not influence any behavior). -/
structure SessionState where
  log : LogState
  loading : Bool
  error : Option String
  expenseId : Option String
  demoMode : Bool
  hasRealUpdates : Bool
  streamOpen : Bool
  demoStarted : Bool
  demoStartCount : Nat
deriving DecidableEq

def pushS (st : SessionState) (agent status message ts : String) : SessionState :=
  { st with log := pushUpdate st.log agent status message ts }

/-- markRealUpdate: record that a genuine server update arrived and leave
demo mode. -/
def markRealUpdate (st : SessionState) : SessionState :=
  { st with hasRealUpdates := true, demoMode := false }

/-- eventSource.close(). -/
def closeStream (st : SessionState) : SessionState :=
  { st with streamOpen := false }

/-- triggerDemoMode: guarded by hasRealUpdatesRef and demoModeRef; on
success it sets demo mode, pushes the explanatory update and schedules
simulateAgentUpdates (modelled by demoStarted and the ghost counter). -/
def triggerDemoMode (message ts : String) (st : SessionState) : SessionState :=
  if st.hasRealUpdates || st.demoMode then st
  else
    { pushS { st with demoMode := true } "System" "processing" message ts with
        demoStarted := true, demoStartCount := st.demoStartCount + 1 }

/-- handleFinalStatus: mark the update real, push the synthesis verdict
message, stop loading and close the stream. -/
def handleFinalStatus (finalStatus : String) (summary : Option String)
    (ts : String) (st : SessionState) : SessionState :=
  let message :=
    match summary with
    | some sum =>
      if sum == "" then sum
      else "🎉 " ++ sum
    | none =>
      if finalStatus == "APPROVED" then "🎉 All checks passed."
      else if finalStatus == "REJECTED" then "❌ Policy violation detected."
      else if finalStatus == "NEEDS_REVIEW" then "⚠️ Needs manual review."
      else "Status: " ++ finalStatus
  closeStream
    { pushS (markRealUpdate st) "Synthesis Agent" "complete" message ts with
        loading := false }

/-- Message of the EXTRACTED stage update. -/
def extractedMsg (ex : ExtractionFindings) : String :=
  "✅ Vision analysis complete: Merchant=\"" ++ ex.merchant.getD "Unknown" ++
    "\", Amount=$" ++ ex.amountFmt ++ ", Category=\"" ++ ex.category.getD "General" ++ "\""

/-- Message of the POLICY_CHECKED stage update. -/
def policyMsg (p : PolicyFindings) : String :=
  let reasoning := p.reasoning.getD
    (if p.compliant then "Compliant with policy." else "Violation detected.")
  (if p.compliant then "✅" else "❌") ++ " " ++ reasoning

/-- Message of the ANOMALY_CHECKED stage update (an empty joined anomaly
list is falsy in JS, hence the default text). -/
def anomalyMsg (a : AnomalyFindings) : String :=
  if a.anomaliesDetected then
    let joined :=
      match a.anomalies with
      | some l => joinSep "; " l
      | none => ""
    "⚠️ " ++ (if joined == "" then "Potential anomalies detected." else joined) ++
      " (risk: " ++ a.riskLevel.getD "unknown" ++ ")"
  else "✅ No anomalies detected."

/-- Message of the REMEDIATION_COMPLETE stage update. -/
def remediationMsg (r : RemediationFindings) : String :=
  if r.needsRemediation then
    "💡 Recommendations: " ++ joinSep "; " (r.recommendations.take 2)
  else "✅ No remediation needed."

/-- The eventSource.onmessage handler body, applied to one parsed frame
while the stream is open. -/
def handleFrame (st : SessionState) (d : StreamData) (ts : String) : SessionState :=
  if d.status == some "TIMEOUT" then
    closeStream
      (if st.hasRealUpdates then st
       else triggerDemoMode "⏱️ Agents processing... Showing preview based on receipt analysis." ts st)
  else if optTruthy d.error then
    closeStream
      { pushS st "System" "error" ("❌ " ++ d.error.getD "") ts with loading := false }
  else
    let status := d.status.getD ""
    if status == "DONE" && optTruthy d.finalStatus then
      handleFinalStatus (d.finalStatus.getD "") d.synthesisSummary ts st
    else if status == "INGESTED" then
      pushS (markRealUpdate st) "Orchestrator" "processing"
        "Receipt ingested. Agents spinning up..." ts
    else if status == "EXTRACTED" then
      match d.extraction with
      | some ex => pushS (markRealUpdate st) "Extraction Agent" "complete" (extractedMsg ex) ts
      | none => st
    else if status == "EXTRACTION_FAILED" then
      closeStream
        { pushS (markRealUpdate st) "Extraction Agent" "error"
            "❌ Extraction failed. Please verify the receipt image quality and retry." ts with
          loading := false }
    else if status == "POLICY_CHECKED" then
      match d.policy with
      | some p => pushS (markRealUpdate st) "Policy Agent" "complete" (policyMsg p) ts
      | none => st
    else if status == "POLICY_CHECK_FAILED" then
      closeStream
        { pushS (markRealUpdate st) "Policy Agent" "error"
            "❌ Policy evaluation failed. Please try again." ts with
          loading := false }
    else if status == "ANOMALY_CHECKED" then
      match d.anomaly with
      | some a => pushS (markRealUpdate st) "Anomaly Agent" "complete" (anomalyMsg a) ts
      | none => st
    else if status == "ANOMALY_CHECK_FAILED" then
      pushS (markRealUpdate st) "Anomaly Agent" "error" "❌ Anomaly detection failed." ts
    else if status == "REMEDIATION_COMPLETE" then
      match d.remediation with
      | some r => pushS (markRealUpdate st) "Remediation Agent" "complete" (remediationMsg r) ts
      | none => st
    else if status == "APPROVED" || status == "REJECTED" ||
            status == "NEEDS_REVIEW" || status == "FAILED" then
      handleFinalStatus status d.synthesisSummary ts st
    else st

/-- The asynchronous signals a session can receive once the stream has been
opened: a parsed frame, a frame whose JSON parse failed (logged and
skipped), the onerror callback, the 30 second watchdog timer, and the i-th
scheduled fallback timer. -/
inductive SessionEvent where
  | frame (d : StreamData)
  | malformed
  | connError
  | watchdog
  | demoTimer (i : Nat)
deriving DecidableEq

/-- One scheduled fallback step firing: push it, and stop loading when the
final synthesis step completes. -/
def applyDemoStep (st : SessionState) (s : DemoStep) (ts : String) : SessionState :=
  let st2 := pushS st s.agent s.status s.message ts
  if s.agent == "Synthesis Agent" && s.status == "complete" then
    { st2 with loading := false }
  else st2

/-- Process one event.  Frames and the onerror and watchdog callbacks only
run while the EventSource is open (after close() it delivers no callbacks);
fallback timers only exist once simulateAgentUpdates has been scheduled. -/
def step (script : List DemoStep) (st : SessionState) (e : SessionEvent)
    (ts : String) : SessionState :=
  match e with
  | .frame d => if st.streamOpen then handleFrame st d ts else st
  | .malformed => st
  | .connError =>
    if st.streamOpen then
      if st.hasRealUpdates then closeStream st
      else
        triggerDemoMode
          "💡 Worker Pools queued. Showing intelligent simulation based on receipt content..."
          ts (closeStream st)
    else st
  | .watchdog =>
    if st.streamOpen then
      closeStream
        (if st.hasRealUpdates then st
         else triggerDemoMode
            "⏱️ Agents taking longer than expected. Showing preview while we wait." ts st)
    else st
  | .demoTimer i =>
    if st.demoStarted then
      match script.get? i with
      | some s => applyDemoStep st s ts
      | none => st
    else st

/-- Run a list of timestamped events. -/
def runSession (script : List DemoStep) : SessionState →
    List (SessionEvent × String) → SessionState
  | st, [] => st
  | st, p :: tr => runSession script (step script st p.1 p.2) tr

/-- Outcome of the upload POST in handleSubmit. -/
inductive UploadResult where
  | ok (expenseId : String)
  | httpError (statusText : String)
  | transportError (message : String)
deriving DecidableEq

def UploadResult.isFailure : UploadResult → Bool
  | .ok _ => false
  | _ => true

/-- The state right after handleSubmit reset everything for a new upload
and pushed the immediate feedback update (loading true, cleared log, flags
reset). -/
def afterReset (t0 : String) : SessionState :=
  pushS
    { log := emptyLog, loading := true, error := none, expenseId := none,
      demoMode := false, hasRealUpdates := false, streamOpen := false,
      demoStarted := false, demoStartCount := 0 }
    "System" "processing" "Uploading receipt to Cloud Storage..." t0

/-- handleSubmit: reset, push the upload feedback, then either record the
expense id, push the success update and open the stream
(startRealTimeStream), or on a non-success response / transport error push
exactly the catch-block error update and stop. -/
def handleSubmitModel (r : UploadResult) (t0 t1 : String) : SessionState :=
  let st := afterReset t0
  match r with
  | .ok expId =>
    { pushS { st with expenseId := some expId } "Orchestrator" "complete"
        ("✅ Receipt uploaded! Expense ID: " ++ takeStr expId 8 ++ "...") t1 with
      streamOpen := true }
  | .httpError statusText =>
    { pushS st "System" "error" ("❌ Upload failed: " ++ statusText) t1 with
      loading := false, error := some ("Upload failed: " ++ statusText) }
  | .transportError message =>
    { pushS st "System" "error" ("❌ " ++ message) t1 with
      loading := false, error := some message }

/-- The session state at the start of streaming, after a successful upload. -/
def afterUploadOk (expId t0 t1 : String) : SessionState :=
  handleSubmitModel (.ok expId) t0 t1

/- ===== Session invariants ===== -/

/-- All steps of a fallback script use pipe-free agents and statuses (true
of the steps array, whose agent and status fields are fixed literals). -/
def ScriptOk (script : List DemoStep) : Prop :=
  ∀ s ∈ script, noPipe s.agent ∧ noPipe s.status

lemma scriptOk_simulate (f : FileModel) (j : Fin 5) :
    ScriptOk (simulateAgentUpdates f j) := by
  intro s hs
  simp only [simulateAgentUpdates, simulateSteps, List.mem_cons, List.not_mem_nil,
    or_false] at hs
  rcases hs with rfl | rfl | rfl | rfl | rfl | rfl | rfl | rfl | rfl | rfl <;>
    exact ⟨by dsimp only; decide, by dsimp only; decide⟩

/-- The session invariant: once the fallback generator is scheduled the
stream is closed; once a real update arrived the generator is never
scheduled; demoModeRef tracks exactly whether the generator was scheduled;
and the log is well-formed. -/
def SessInv (st : SessionState) : Prop :=
  (st.demoStarted = true → st.streamOpen = false) ∧
  (st.hasRealUpdates = true → st.demoStarted = false) ∧
  st.demoMode = st.demoStarted ∧
  LogWf st.log

lemma inv_closeStream {st : SessionState} (h : SessInv st) : SessInv (closeStream st) := by
  obtain ⟨h1, h2, h3, h4⟩ := h
  exact ⟨by simp [closeStream], by simpa [closeStream] using h2,
    by simpa [closeStream] using h3, by simpa [closeStream] using h4⟩

lemma inv_stagePush {st : SessionState} {a s m ts : String} (h : SessInv st)
    (ho : st.streamOpen = true) (ha : noPipe a) (hs : noPipe s) :
    SessInv (pushS (markRealUpdate st) a s m ts) := by
  obtain ⟨h1, h2, h3, h4⟩ := h
  have hds : st.demoStarted = false := by
    by_contra hc
    simp only [Bool.not_eq_false] at hc
    rw [h1 hc] at ho
    exact Bool.false_ne_true ho
  refine ⟨?_, ?_, ?_, ?_⟩
  · intro hd
    simp only [pushS, markRealUpdate] at hd
    rw [hds] at hd
    exact absurd hd Bool.false_ne_true
  · intro _
    simpa [pushS, markRealUpdate] using hds
  · simpa [pushS, markRealUpdate] using hds.symm
  · simpa [pushS, markRealUpdate] using pushUpdate_wf a s m ts ha hs h4

lemma inv_loadingFalse {st : SessionState} (h : SessInv st) :
    SessInv { st with loading := false } := by
  obtain ⟨h1, h2, h3, h4⟩ := h
  exact ⟨by simpa using h1, by simpa using h2, by simpa using h3, by simpa using h4⟩

lemma inv_fatalPush {st : SessionState} {a s m ts : String} (h : SessInv st)
    (ho : st.streamOpen = true) (ha : noPipe a) (hs : noPipe s) :
    SessInv (closeStream { pushS (markRealUpdate st) a s m ts with loading := false }) :=
  inv_closeStream (inv_loadingFalse (inv_stagePush h ho ha hs))

lemma inv_handleFinalStatus {st : SessionState} {fs : String} {sum : Option String}
    {ts : String} (h : SessInv st) (ho : st.streamOpen = true) :
    SessInv (handleFinalStatus fs sum ts st) := by
  unfold handleFinalStatus
  exact inv_closeStream (inv_loadingFalse (inv_stagePush h ho (by decide) (by decide)))

lemma inv_errorPush {st : SessionState} {m ts : String} (h : SessInv st)
    (ho : st.streamOpen = true) :
    SessInv (closeStream { pushS st "System" "error" m ts with loading := false }) := by
  obtain ⟨h1, h2, h3, h4⟩ := h
  have hds : st.demoStarted = false := by
    by_contra hc
    simp only [Bool.not_eq_false] at hc
    rw [h1 hc] at ho
    exact Bool.false_ne_true ho
  refine ⟨?_, ?_, ?_, ?_⟩
  · intro _; rfl
  · intro _
    simpa [closeStream, pushS] using hds
  · simpa [closeStream, pushS] using h3
  · simpa [closeStream, pushS] using pushUpdate_wf _ _ _ _ (by decide) (by decide) h4

lemma inv_trigger {st : SessionState} {m ts : String} (h : SessInv st)
    (ho : st.streamOpen = false) : SessInv (triggerDemoMode m ts st) := by
  obtain ⟨h1, h2, h3, h4⟩ := h
  unfold triggerDemoMode
  by_cases hg : (st.hasRealUpdates || st.demoMode) = true
  · simpa [hg] using ⟨h1, h2, h3, h4⟩
  · rw [if_neg hg]
    simp only [Bool.or_eq_true, not_or, Bool.not_eq_true] at hg
    refine ⟨?_, ?_, ?_, ?_⟩
    · intro _
      simpa [pushS] using ho
    · intro hr
      simp only [pushS] at hr
      exact absurd (hg.1 ▸ hr) Bool.false_ne_true
    · simp [pushS]
    · simpa [pushS] using pushUpdate_wf _ _ _ _ (by decide) (by decide) h4

lemma inv_applyDemoStep {st : SessionState} {s : DemoStep} {ts : String} (h : SessInv st)
    (ha : noPipe s.agent) (hst : noPipe s.status) : SessInv (applyDemoStep st s ts) := by
  obtain ⟨h1, h2, h3, h4⟩ := h
  unfold applyDemoStep
  have hbase : SessInv (pushS st s.agent s.status s.message ts) := by
    refine ⟨by simpa [pushS] using h1, by simpa [pushS] using h2,
      by simpa [pushS] using h3, by simpa [pushS] using pushUpdate_wf _ _ _ _ ha hst h4⟩
  by_cases hc : (s.agent == "Synthesis Agent" && s.status == "complete") = true
  · simpa [hc] using inv_loadingFalse hbase
  · simpa [hc] using hbase

/-- Trigger-then-close preserves the invariant (the TIMEOUT frame and the
watchdog both call triggerDemoMode and then close the stream). -/
lemma inv_triggerClose {st : SessionState} {m ts : String} (h : SessInv st) :
    SessInv (closeStream (triggerDemoMode m ts st)) := by
  obtain ⟨h1, h2, h3, h4⟩ := h
  unfold triggerDemoMode
  by_cases hg : (st.hasRealUpdates || st.demoMode) = true
  · rw [if_pos hg]
    exact inv_closeStream ⟨h1, h2, h3, h4⟩
  · rw [if_neg hg]
    simp only [Bool.or_eq_true, not_or, Bool.not_eq_true] at hg
    refine ⟨?_, ?_, ?_, ?_⟩
    · intro _; rfl
    · intro hr
      simp only [closeStream, pushS] at hr
      exact absurd (hg.1 ▸ hr) Bool.false_ne_true
    · simp [closeStream, pushS]
    · simpa [closeStream, pushS] using
        pushUpdate_wf _ _ _ _ (by decide) (by decide) h4

lemma inv_handleFrame {st : SessionState} {d : StreamData} {ts : String}
    (h : SessInv st) (ho : st.streamOpen = true) : SessInv (handleFrame st d ts) := by
  unfold handleFrame
  by_cases h1 : (d.status == some "TIMEOUT") = true
  · rw [if_pos h1]
    by_cases h2 : st.hasRealUpdates = true
    · rw [if_pos h2]
      exact inv_closeStream h
    · rw [if_neg h2]
      exact inv_triggerClose h
  · rw [if_neg h1]
    by_cases h2 : optTruthy d.error = true
    · rw [if_pos h2]
      exact inv_errorPush h ho
    · rw [if_neg h2]
      by_cases h3 : (d.status.getD "" == "DONE" && optTruthy d.finalStatus) = true
      · rw [if_pos h3]
        exact inv_handleFinalStatus h ho
      · rw [if_neg h3]
        by_cases h4 : (d.status.getD "" == "INGESTED") = true
        · rw [if_pos h4]
          exact inv_stagePush h ho (by decide) (by decide)
        · rw [if_neg h4]
          by_cases h5 : (d.status.getD "" == "EXTRACTED") = true
          · rw [if_pos h5]
            cases d.extraction with
            | some ex => exact inv_stagePush h ho (by decide) (by decide)
            | none => exact h
          · rw [if_neg h5]
            by_cases h6 : (d.status.getD "" == "EXTRACTION_FAILED") = true
            · rw [if_pos h6]
              exact inv_fatalPush h ho (by decide) (by decide)
            · rw [if_neg h6]
              by_cases h7 : (d.status.getD "" == "POLICY_CHECKED") = true
              · rw [if_pos h7]
                cases d.policy with
                | some p => exact inv_stagePush h ho (by decide) (by decide)
                | none => exact h
              · rw [if_neg h7]
                by_cases h8 : (d.status.getD "" == "POLICY_CHECK_FAILED") = true
                · rw [if_pos h8]
                  exact inv_fatalPush h ho (by decide) (by decide)
                · rw [if_neg h8]
                  by_cases h9 : (d.status.getD "" == "ANOMALY_CHECKED") = true
                  · rw [if_pos h9]
                    cases d.anomaly with
                    | some a => exact inv_stagePush h ho (by decide) (by decide)
                    | none => exact h
                  · rw [if_neg h9]
                    by_cases h10 : (d.status.getD "" == "ANOMALY_CHECK_FAILED") = true
                    · rw [if_pos h10]
                      exact inv_stagePush h ho (by decide) (by decide)
                    · rw [if_neg h10]
                      by_cases h11 : (d.status.getD "" == "REMEDIATION_COMPLETE") = true
                      · rw [if_pos h11]
                        cases d.remediation with
                        | some r => exact inv_stagePush h ho (by decide) (by decide)
                        | none => exact h
                      · rw [if_neg h11]
                        by_cases h12 : (d.status.getD "" == "APPROVED" ||
                            d.status.getD "" == "REJECTED" ||
                            d.status.getD "" == "NEEDS_REVIEW" ||
                            d.status.getD "" == "FAILED") = true
                        · rw [if_pos h12]
                          exact inv_handleFinalStatus h ho
                        · rw [if_neg h12]
                          exact h

/-- The invariant is preserved by every session event. -/
lemma inv_step {script : List DemoStep} {st : SessionState} {e : SessionEvent}
    {ts : String} (hsc : ScriptOk script) (h : SessInv st) :
    SessInv (step script st e ts) := by
  cases e with
  | frame d =>
    simp only [step]
    by_cases ho : st.streamOpen = true
    · rw [if_pos ho]
      exact inv_handleFrame h ho
    · rw [if_neg ho]
      exact h
  | malformed => exact h
  | connError =>
    simp only [step]
    by_cases ho : st.streamOpen = true
    · rw [if_pos ho]
      by_cases hr : st.hasRealUpdates = true
      · rw [if_pos hr]
        exact inv_closeStream h
      · rw [if_neg hr]
        exact inv_trigger (inv_closeStream h) rfl
    · rw [if_neg ho]
      exact h
  | watchdog =>
    simp only [step]
    by_cases ho : st.streamOpen = true
    · rw [if_pos ho]
      by_cases hr : st.hasRealUpdates = true
      · rw [if_pos hr]
        exact inv_closeStream h
      · rw [if_neg hr]
        exact inv_triggerClose h
    · rw [if_neg ho]
      exact h
  | demoTimer i =>
    simp only [step]
    by_cases hd : st.demoStarted = true
    · rw [if_pos hd]
      cases hg : script.get? i with
      | some s =>
        have hmem : s ∈ script := List.get?_mem hg
        exact inv_applyDemoStep h (hsc s hmem).1 (hsc s hmem).2
      | none => exact h
    · rw [if_neg hd]
      exact h

/-- The invariant is preserved by any event trace. -/
lemma inv_run {script : List DemoStep} (hsc : ScriptOk script) :
    ∀ (tr : List (SessionEvent × String)) (st : SessionState), SessInv st →
      SessInv (runSession script st tr)
  | [], st, h => h
  | p :: tr, st, h => inv_run hsc tr _ (inv_step hsc h)

/-- The invariant holds right after a successful upload. -/
lemma inv_afterUploadOk (expId t0 t1 : String) : SessInv (afterUploadOk expId t0 t1) := by
  refine ⟨?_, ?_, ?_, ?_⟩
  · intro hd
    simp [afterUploadOk, handleSubmitModel, afterReset, pushS] at hd
  · intro hr
    simp [afterUploadOk, handleSubmitModel, afterReset, pushS] at hr
  · simp [afterUploadOk, handleSubmitModel, afterReset, pushS]
  · simp only [afterUploadOk, handleSubmitModel, afterReset, pushS]
    exact pushUpdate_wf _ _ _ _ (by decide) (by decide)
      (pushUpdate_wf _ _ _ _ (by decide) (by decide) logWf_empty)

/- ===== Control-field lemmas (fallback-start counting) ===== -/

/-- Relation between a state and the result of one handler run: the ghost
start counter grows by at most one (and only together with demoModeRef
being set); once demoModeRef or hasRealUpdatesRef is set it stays set and
the counter is frozen; hasRealUpdatesRef is never cleared. -/
def CtrlOk (st F : SessionState) : Prop :=
  (F.demoStartCount = st.demoStartCount ∨
    (F.demoStartCount = st.demoStartCount + 1 ∧ F.demoMode = true)) ∧
  ((st.demoMode = true ∨ st.hasRealUpdates = true) →
    (F.demoMode = true ∨ F.hasRealUpdates = true) ∧
    F.demoStartCount = st.demoStartCount) ∧
  (st.hasRealUpdates = true → F.hasRealUpdates = true)

lemma ctrlOk_id (st : SessionState) : CtrlOk st st :=
  ⟨Or.inl rfl, fun h => ⟨h, rfl⟩, fun h => h⟩

lemma ctrlOk_closeStream {st F : SessionState} (h : CtrlOk st F) :
    CtrlOk st (closeStream F) := h

lemma ctrlOk_loadingFalse {st F : SessionState} (h : CtrlOk st F) :
    CtrlOk st { F with loading := false } := h

lemma ctrlOk_pushSelf (st : SessionState) (a s m ts : String) :
    CtrlOk st (pushS st a s m ts) :=
  ⟨Or.inl rfl, fun h => ⟨h, rfl⟩, fun h => h⟩

lemma ctrlOk_stagePush (st : SessionState) (a s m ts : String) :
    CtrlOk st (pushS (markRealUpdate st) a s m ts) :=
  ⟨Or.inl rfl, fun _ => ⟨Or.inr rfl, rfl⟩, fun _ => rfl⟩

lemma ctrlOk_final (st : SessionState) (fs : String) (sum : Option String) (ts : String) :
    CtrlOk st (handleFinalStatus fs sum ts st) := by
  unfold handleFinalStatus
  exact ctrlOk_closeStream (ctrlOk_loadingFalse (ctrlOk_stagePush st _ _ _ ts))

lemma ctrlOk_trigger (st : SessionState) (m ts : String) :
    CtrlOk st (triggerDemoMode m ts st) := by
  unfold triggerDemoMode
  by_cases hg : (st.hasRealUpdates || st.demoMode) = true
  · rw [if_pos hg]
    exact ctrlOk_id st
  · rw [if_neg hg]
    simp only [Bool.or_eq_true, not_or, Bool.not_eq_true] at hg
    refine ⟨Or.inr ⟨rfl, rfl⟩, ?_, ?_⟩
    · intro h
      rcases h with hdm | hr
      · exact absurd hdm (by simp [hg.2])
      · exact absurd hr (by simp [hg.1])
    · intro hr
      exact absurd hr (by simp [hg.1])

lemma ctrlOk_demoStep (st : SessionState) (s : DemoStep) (ts : String) :
    CtrlOk st (applyDemoStep st s ts) := by
  unfold applyDemoStep
  by_cases hc : (s.agent == "Synthesis Agent" && s.status == "complete") = true
  · rw [if_pos hc]
    exact ctrlOk_loadingFalse (ctrlOk_pushSelf st _ _ _ ts)
  · rw [if_neg hc]
    exact ctrlOk_pushSelf st _ _ _ ts

lemma ctrlOk_handleFrame (st : SessionState) (d : StreamData) (ts : String) :
    CtrlOk st (handleFrame st d ts) := by
  unfold handleFrame
  by_cases h1 : (d.status == some "TIMEOUT") = true
  · rw [if_pos h1]
    by_cases h2 : st.hasRealUpdates = true
    · rw [if_pos h2]
      exact ctrlOk_closeStream (ctrlOk_id st)
    · rw [if_neg h2]
      exact ctrlOk_closeStream (ctrlOk_trigger st _ ts)
  · rw [if_neg h1]
    by_cases h2 : optTruthy d.error = true
    · rw [if_pos h2]
      exact ctrlOk_closeStream (ctrlOk_loadingFalse (ctrlOk_pushSelf st _ _ _ ts))
    · rw [if_neg h2]
      by_cases h3 : (d.status.getD "" == "DONE" && optTruthy d.finalStatus) = true
      · rw [if_pos h3]
        exact ctrlOk_final st _ _ ts
      · rw [if_neg h3]
        by_cases h4 : (d.status.getD "" == "INGESTED") = true
        · rw [if_pos h4]
          exact ctrlOk_stagePush st _ _ _ ts
        · rw [if_neg h4]
          by_cases h5 : (d.status.getD "" == "EXTRACTED") = true
          · rw [if_pos h5]
            cases d.extraction with
            | some ex => exact ctrlOk_stagePush st _ _ _ ts
            | none => exact ctrlOk_id st
          · rw [if_neg h5]
            by_cases h6 : (d.status.getD "" == "EXTRACTION_FAILED") = true
            · rw [if_pos h6]
              exact ctrlOk_closeStream (ctrlOk_loadingFalse (ctrlOk_stagePush st _ _ _ ts))
            · rw [if_neg h6]
              by_cases h7 : (d.status.getD "" == "POLICY_CHECKED") = true
              · rw [if_pos h7]
                cases d.policy with
                | some p => exact ctrlOk_stagePush st _ _ _ ts
                | none => exact ctrlOk_id st
              · rw [if_neg h7]
                by_cases h8 : (d.status.getD "" == "POLICY_CHECK_FAILED") = true
                · rw [if_pos h8]
                  exact ctrlOk_closeStream (ctrlOk_loadingFalse (ctrlOk_stagePush st _ _ _ ts))
                · rw [if_neg h8]
                  by_cases h9 : (d.status.getD "" == "ANOMALY_CHECKED") = true
                  · rw [if_pos h9]
                    cases d.anomaly with
                    | some a => exact ctrlOk_stagePush st _ _ _ ts
                    | none => exact ctrlOk_id st
                  · rw [if_neg h9]
                    by_cases h10 : (d.status.getD "" == "ANOMALY_CHECK_FAILED") = true
                    · rw [if_pos h10]
                      exact ctrlOk_stagePush st _ _ _ ts
                    · rw [if_neg h10]
                      by_cases h11 : (d.status.getD "" == "REMEDIATION_COMPLETE") = true
                      · rw [if_pos h11]
                        cases d.remediation with
                        | some r => exact ctrlOk_stagePush st _ _ _ ts
                        | none => exact ctrlOk_id st
                      · rw [if_neg h11]
                        by_cases h12 : (d.status.getD "" == "APPROVED" ||
                            d.status.getD "" == "REJECTED" ||
                            d.status.getD "" == "NEEDS_REVIEW" ||
                            d.status.getD "" == "FAILED") = true
                        · rw [if_pos h12]
                          exact ctrlOk_final st _ _ ts
                        · rw [if_neg h12]
                          exact ctrlOk_id st

lemma ctrlOk_step (script : List DemoStep) (st : SessionState) (e : SessionEvent)
    (ts : String) : CtrlOk st (step script st e ts) := by
  cases e with
  | frame d =>
    simp only [step]
    by_cases ho : st.streamOpen = true
    · rw [if_pos ho]
      exact ctrlOk_handleFrame st d ts
    · rw [if_neg ho]
      exact ctrlOk_id st
  | malformed => exact ctrlOk_id st
  | connError =>
    simp only [step]
    by_cases ho : st.streamOpen = true
    · rw [if_pos ho]
      by_cases hr : st.hasRealUpdates = true
      · rw [if_pos hr]
        exact ctrlOk_closeStream (ctrlOk_id st)
      · rw [if_neg hr]
        exact ctrlOk_trigger (closeStream st) _ ts
    · rw [if_neg ho]
      exact ctrlOk_id st
  | watchdog =>
    simp only [step]
    by_cases ho : st.streamOpen = true
    · rw [if_pos ho]
      by_cases hr : st.hasRealUpdates = true
      · rw [if_pos hr]
        exact ctrlOk_closeStream (ctrlOk_id st)
      · rw [if_neg hr]
        exact ctrlOk_closeStream (ctrlOk_trigger st _ ts)
    · rw [if_neg ho]
      exact ctrlOk_id st
  | demoTimer i =>
    simp only [step]
    by_cases hd : st.demoStarted = true
    · rw [if_pos hd]
      cases script.get? i with
      | some s => exact ctrlOk_demoStep st s ts
      | none => exact ctrlOk_id st
    · rw [if_neg hd]
      exact ctrlOk_id st

/-- Once demoModeRef or hasRealUpdatesRef is set, it stays set over any
trace and the fallback-start counter never changes again. -/
lemma run_locked (script : List DemoStep) :
    ∀ (tr : List (SessionEvent × String)) (st : SessionState),
      (st.demoMode = true ∨ st.hasRealUpdates = true) →
      ((runSession script st tr).demoMode = true ∨
        (runSession script st tr).hasRealUpdates = true) ∧
      (runSession script st tr).demoStartCount = st.demoStartCount := by
  intro tr
  induction tr with
  | nil => exact fun st h => ⟨h, rfl⟩
  | cons p tr ih =>
    intro st h
    have hc := (ctrlOk_step script st p.1 p.2).2.1 h
    have ihr := ih (step script st p.1 p.2) hc.1
    simp only [runSession]
    exact ⟨ihr.1, by rw [ihr.2, hc.2]⟩

/-- Over any trace the fallback-start counter grows by at most one. -/
lemma run_count_le (script : List DemoStep) :
    ∀ (tr : List (SessionEvent × String)) (st : SessionState),
      (runSession script st tr).demoStartCount ≤ st.demoStartCount + 1 := by
  intro tr
  induction tr with
  | nil => exact fun st => Nat.le_succ _
  | cons p tr ih =>
    intro st
    simp only [runSession]
    rcases (ctrlOk_step script st p.1 p.2).1 with heq | ⟨hc, hdm⟩
    · have := ih (step script st p.1 p.2)
      rw [heq] at this
      exact this
    · have := (run_locked script tr (step script st p.1 p.2) (Or.inl hdm)).2
      rw [this, hc]

/-- hasRealUpdatesRef is monotone over any trace. -/
lemma run_hasReal_mono (script : List DemoStep) :
    ∀ (tr : List (SessionEvent × String)) (st : SessionState),
      st.hasRealUpdates = true → (runSession script st tr).hasRealUpdates = true := by
  intro tr
  induction tr with
  | nil => exact fun st h => h
  | cons p tr ih =>
    intro st h
    exact ih (step script st p.1 p.2) ((ctrlOk_step script st p.1 p.2).2.2 h)

lemma runSession_append (script : List DemoStep) :
    ∀ (a b : List (SessionEvent × String)) (st : SessionState),
      runSession script st (a ++ b) = runSession script (runSession script st a) b := by
  intro a
  induction a with
  | nil => exact fun b st => rfl
  | cons p a ih =>
    intro b st
    simp only [List.cons_append, runSession]
    exact ih b (step script st p.1 p.2)

/- ===== Concrete sample data used by witnesses and counterexamples ===== -/

/-- An unclassified non-image submission. -/
def demoFileA : FileModel := ⟨"receipt.pdf", "application/pdf", "team lunch"⟩

/-- A non-image text submission with no Total pattern. -/
def plainFile : FileModel := ⟨"notes.txt", "text/plain", "no totals here"⟩

/-- Scenario B submission: text content with a Total amount and the word
WINE. -/
def barFile : FileModel := ⟨"receipt.txt", "text/plain", "DINNER WINE Total: $42.10"⟩

def ingestedFrame : StreamData := { emptyData with status := some "INGESTED" }

def policyFailFrame : StreamData := { emptyData with status := some "POLICY_CHECK_FAILED" }

def anomalyFailFrame : StreamData := { emptyData with status := some "ANOMALY_CHECK_FAILED" }

def extractedNoFindings : StreamData := { emptyData with status := some "EXTRACTED" }

/-- A session state on which every further event is a no-op. -/
def StuckSession (script : List DemoStep) (st : SessionState) : Prop :=
  ∀ (e : SessionEvent) (ts : String), step script st e ts = st

/-- A terminal log entry in the sense of the spec: a synthesis verdict
(real or synthesized) or an error entry. -/
def isTerminalEntry (u : AgentUpdate) : Bool :=
  (u.agent == "Synthesis Agent" && u.status == "complete") || u.status == "error"

lemma applyDemoStep_log (st : SessionState) (s : DemoStep) (ts : String) :
    (applyDemoStep st s ts).log = pushUpdate st.log s.agent s.status s.message ts := by
  unfold applyDemoStep
  by_cases hc : (s.agent == "Synthesis Agent" && s.status == "complete") = true
  · rw [if_pos hc]
    rfl
  · rw [if_neg hc]
    rfl

/- ===== Claim C1 ===== -/

/-- Claim C1: once the session mode is fixed, only the fixed source
appends.  After the fallback generator has been scheduled (demo mode), all
live-stream callbacks (frames, onerror, the watchdog) are no-ops, because
every path that triggers the fallback has already closed the EventSource;
in particular later stage or verdict frames append nothing and do not
change the mode.  Conversely once a real update has arrived (live mode),
the fallback timers are no-ops because the generator was never scheduled. -/
theorem c1_mode_exclusivity (f : FileModel) (j : Fin 5) (expId t0 t1 ts : String)
    (tr : List (SessionEvent × String)) :
    let script := simulateAgentUpdates f j
    let st := runSession script (afterUploadOk expId t0 t1) tr
    (st.demoStarted = true →
      (∀ d, step script st (.frame d) ts = st) ∧
      step script st .connError ts = st ∧
      step script st .watchdog ts = st) ∧
    (st.hasRealUpdates = true → ∀ i, step script st (.demoTimer i) ts = st) := by
  intro script st
  have hinv : SessInv st :=
    inv_run (scriptOk_simulate f j) tr _ (inv_afterUploadOk expId t0 t1)
  constructor
  · intro h1
    have ho : ¬(st.streamOpen = true) := by
      rw [hinv.1 h1]
      exact Bool.false_ne_true
    refine ⟨fun d => ?_, ?_, ?_⟩ <;> (simp only [step]; rw [if_neg ho])
  · intro hr i
    have hds : ¬(st.demoStarted = true) := by
      rw [hinv.2.1 hr]
      exact Bool.false_ne_true
    simp only [step]
    rw [if_neg hds]

def trW1 : List (SessionEvent × String) := [(.connError, "e1")]

def stW1 : SessionState :=
  runSession (simulateAgentUpdates demoFileA 0) (afterUploadOk "exp-w1" "t0" "t1") trW1

theorem c1_mode_exclusivity_witness :
    stW1.demoStarted = true ∧
    step (simulateAgentUpdates demoFileA 0) stW1 .watchdog "t9" = stW1 :=
  ⟨by decide,
    ((c1_mode_exclusivity demoFileA 0 "exp-w1" "t0" "t1" "t9" trW1).1 (by decide)).2.2⟩

/- ===== Claim C2 ===== -/

def trC2 : List (SessionEvent × String) := [(.frame ingestedFrame, "t2"), (.watchdog, "t3")]

def stC2 : SessionState :=
  runSession (simulateAgentUpdates demoFileA 0) (afterUploadOk "exp-c2" "t0" "t1") trC2

/-- Claim C2 is false on the code: a session that received one real
non-terminal frame (INGESTED) and then nothing is closed by the 30 second
watchdog without any terminal entry — the watchdog only starts the fallback
when no real update arrived — and every further event is a no-op, so the
log never gains a terminal entry while loading stays on forever. -/
theorem c2_watchdog_gap_counterexample :
    stC2.log.updates.all (fun u => !(isTerminalEntry u)) = true ∧
    stC2.loading = true ∧
    StuckSession (simulateAgentUpdates demoFileA 0) stC2 := by
  refine ⟨by decide, by decide, ?_⟩
  intro e ts
  have ho : ¬(stC2.streamOpen = true) := by decide
  have hd : ¬(stC2.demoStarted = true) := by decide
  cases e with
  | frame d =>
    simp only [step]
    rw [if_neg ho]
  | malformed => rfl
  | connError =>
    simp only [step]
    rw [if_neg ho]
  | watchdog =>
    simp only [step]
    rw [if_neg ho]
  | demoTimer i =>
    simp only [step]
    rw [if_neg hd]

/-- Claim C2 amended: a session that reaches the streaming phase and has
recorded no real live update eventually gets a terminal entry — when the
watchdog (or any stall signal) fires, the fallback generator is scheduled
and its final step puts a synthesized synthesis-complete verdict in the
log.  (Sessions that did record a real non-terminal update and then stall
are closed by the watchdog without a terminal entry, as the counterexample
shows.) -/
theorem c2_fallback_terminal_amended (f : FileModel) (j : Fin 5)
    (expId t0 t1 ts ts2 : String) (tr : List (SessionEvent × String)) :
    let script := simulateAgentUpdates f j
    let st := runSession script (afterUploadOk expId t0 t1) tr
    st.hasRealUpdates = false → st.streamOpen = true →
    ((step script st .watchdog ts).demoStarted = true ∧
      ∃ u ∈ (step script (step script st .watchdog ts) (.demoTimer 9) ts2).log.updates,
        u.agent = "Synthesis Agent" ∧ u.status = "complete") := by
  intro script st h1 h2
  have hinv : SessInv st :=
    inv_run (scriptOk_simulate f j) tr _ (inv_afterUploadOk expId t0 t1)
  have hds : st.demoStarted = false := by
    by_contra hc
    simp only [Bool.not_eq_false] at hc
    rw [hinv.1 hc] at h2
    exact Bool.false_ne_true h2
  have hdm : st.demoMode = false := by rw [hinv.2.2.1, hds]
  have hguard : ¬((st.hasRealUpdates || st.demoMode) = true) := by
    rw [h1, hdm]
    decide
  have hstep : step script st .watchdog ts =
      closeStream (triggerDemoMode
        "⏱️ Agents taking longer than expected. Showing preview while we wait." ts st) := by
    simp only [step]
    rw [if_pos h2, if_neg (by rw [h1]; exact Bool.false_ne_true)]
  have htrig : triggerDemoMode
      "⏱️ Agents taking longer than expected. Showing preview while we wait." ts st =
      { pushS { st with demoMode := true } "System" "processing"
          "⏱️ Agents taking longer than expected. Showing preview while we wait." ts with
        demoStarted := true, demoStartCount := st.demoStartCount + 1 } := by
    unfold triggerDemoMode
    rw [if_neg hguard]
  have hds2 : (step script st .watchdog ts).demoStarted = true := by
    rw [hstep, htrig]
    rfl
  refine ⟨hds2, ?_⟩
  have hinv2 : SessInv (step script st .watchdog ts) :=
    inv_step (scriptOk_simulate f j) hinv
  obtain ⟨m9, hg9⟩ : ∃ m, script.get? 9 = some ⟨"Synthesis Agent", "complete", m, 13000⟩ :=
    ⟨_, rfl⟩
  set st2 := step script st .watchdog ts with hst2
  have hstep2 : step script st2 (.demoTimer 9) ts2 =
      applyDemoStep st2 ⟨"Synthesis Agent", "complete", m9, 13000⟩ ts2 := by
    simp only [step]
    rw [if_pos hds2, hg9]
  rw [hstep2, applyDemoStep_log]
  obtain ⟨u, hu, hua, hus, _⟩ :=
    pushUpdate_mem "Synthesis Agent" "complete" m9 ts2 (by decide) (by decide)
      hinv2.2.2.2
  exact ⟨u, hu, hua, hus⟩

theorem c2_fallback_terminal_amended_witness :
    ((step (simulateAgentUpdates demoFileA 0) (afterUploadOk "exp-w2" "t0" "t1")
        .watchdog "t8").demoStarted = true ∧
      ∃ u ∈ (step (simulateAgentUpdates demoFileA 0)
          (step (simulateAgentUpdates demoFileA 0) (afterUploadOk "exp-w2" "t0" "t1")
            .watchdog "t8") (.demoTimer 9) "t9").log.updates,
        u.agent = "Synthesis Agent" ∧ u.status = "complete") :=
  c2_fallback_terminal_amended demoFileA 0 "exp-w2" "t0" "t1" "t8" "t9" []
    (by decide) (by decide)

/- ===== Claim C5 ===== -/

/-- Claim C5: the fallback generator starts at most once per session, no
matter how many stall / connection-error / timeout signals occur, and once
a real live update has been recorded it never starts again afterward. -/
theorem c5_single_fallback_trigger (f : FileModel) (j : Fin 5) (expId t0 t1 : String)
    (tr tr2 : List (SessionEvent × String)) :
    let script := simulateAgentUpdates f j
    let st := runSession script (afterUploadOk expId t0 t1) tr
    st.demoStartCount ≤ 1 ∧
    (st.hasRealUpdates = true →
      (runSession script st tr2).demoStartCount = st.demoStartCount) := by
  intro script st
  constructor
  · have h := run_count_le script tr (afterUploadOk expId t0 t1)
    have h0 : (afterUploadOk expId t0 t1).demoStartCount = 0 := rfl
    rw [h0] at h
    exact h
  · intro hr
    exact (run_locked script tr2 st (Or.inr hr)).2

def trW5 : List (SessionEvent × String) := [(.frame ingestedFrame, "a1")]

def trW5b : List (SessionEvent × String) := [(.watchdog, "a2"), (.connError, "a3")]

def stW5 : SessionState :=
  runSession (simulateAgentUpdates demoFileA 0) (afterUploadOk "exp-w5" "t0" "t1") trW5

theorem c5_single_fallback_trigger_witness :
    stW5.demoStartCount ≤ 1 ∧
    (runSession (simulateAgentUpdates demoFileA 0) stW5 trW5b).demoStartCount =
      stW5.demoStartCount :=
  ⟨(c5_single_fallback_trigger demoFileA 0 "exp-w5" "t0" "t1" trW5 trW5b).1,
   (c5_single_fallback_trigger demoFileA 0 "exp-w5" "t0" "t1" trW5 trW5b).2 (by decide)⟩

/- ===== Claim C3 ===== -/

/-- Claim C3 is false on the code: a POLICY_CHECK_FAILED frame closes the
stream and clears loading (the session completes), exactly like
EXTRACTION_FAILED, rather than leaving the stream open. -/
theorem c3_policy_fail_counterexample :
    (step [] (afterUploadOk "exp-c3" "t0" "t1") (.frame policyFailFrame) "t2").streamOpen
      = false ∧
    (step [] (afterUploadOk "exp-c3" "t0" "t1") (.frame policyFailFrame) "t2").loading
      = false := by
  decide

/-- Claim C3 amended: a POLICY_CHECK_FAILED frame appends one error-status
Policy Agent update and completes the session: loading is cleared and the
stream is closed (like EXTRACTION_FAILED); among the stage failures only
ANOMALY_CHECK_FAILED leaves the stream open. -/
theorem c3_policy_fail_amended (script : List DemoStep) (st : SessionState) (ts : String)
    (h1 : st.streamOpen = true) :
    (step script st (.frame policyFailFrame) ts).streamOpen = false ∧
    (step script st (.frame policyFailFrame) ts).loading = false ∧
    (step script st (.frame policyFailFrame) ts).hasRealUpdates = true ∧
    (updateKey "Policy Agent" "error" "❌ Policy evaluation failed. Please try again." ∉
        st.log.emitted →
      (step script st (.frame policyFailFrame) ts).log.updates =
        st.log.updates ++
          [⟨"Policy Agent", "error", "❌ Policy evaluation failed. Please try again.", ts⟩]) ∧
    (step script st (.frame anomalyFailFrame) ts).streamOpen = true := by
  have hstep : step script st (.frame policyFailFrame) ts =
      closeStream { pushS (markRealUpdate st) "Policy Agent" "error"
        "❌ Policy evaluation failed. Please try again." ts with loading := false } := by
    simp only [step]
    rw [if_pos h1]
    rfl
  have hstep2 : step script st (.frame anomalyFailFrame) ts =
      pushS (markRealUpdate st) "Anomaly Agent" "error" "❌ Anomaly detection failed." ts := by
    simp only [step]
    rw [if_pos h1]
    rfl
  refine ⟨by rw [hstep]; rfl, by rw [hstep]; rfl, by rw [hstep]; rfl, ?_,
    by rw [hstep2]; exact h1⟩
  intro hk
  rw [hstep]
  show (pushUpdate st.log "Policy Agent" "error"
      "❌ Policy evaluation failed. Please try again." ts).updates = _
  unfold pushUpdate
  rw [if_neg hk]

theorem c3_policy_fail_amended_witness :
    (step [] (afterUploadOk "exp-w3" "t0" "t1") (.frame policyFailFrame) "t2").log.updates =
      (afterUploadOk "exp-w3" "t0" "t1").log.updates ++
        [⟨"Policy Agent", "error", "❌ Policy evaluation failed. Please try again.", "t2"⟩] ∧
    (step [] (afterUploadOk "exp-w3" "t0" "t1") (.frame anomalyFailFrame) "t2").streamOpen
      = true := by
  have h := c3_policy_fail_amended [] (afterUploadOk "exp-w3" "t0" "t1") "t2" (by decide)
  exact ⟨h.2.2.2.1 (by decide), h.2.2.2.2⟩

/- ===== Claim C6 ===== -/

/-- Claim C6 is false on the code: the fallback timeline has ten steps, not
nine — the claimed list omits the synthesis-processing step scheduled at
11 seconds. -/
theorem c6_nine_steps_counterexample :
    (simulateAgentUpdates demoFileA 0).length = 10 ∧
    ¬((simulateAgentUpdates demoFileA 0).length = 9) := by
  decide

/-- Claim C6 amended: the fallback timeline has exactly ten steps — the
nine listed in the claim plus a synthesis-processing step at 11 seconds —
in the fixed order below; every step is scheduled between 1 and 13 seconds
after fallback start, and firing the final (synthesis-complete) step clears
the loading flag, the terminal marker of the session. -/
theorem c6_timeline_amended (isImage : Bool) (p : SimPlan) (j : Fin 5) :
    (simulateSteps isImage p j).map (fun s => (s.agent, s.status)) =
      [("Extraction Agent", "processing"), ("Extraction Agent", "complete"),
       ("Policy Agent", "processing"), ("Policy Agent", "complete"),
       ("Anomaly Agent", "processing"), ("Anomaly Agent", "complete"),
       ("Remediation Agent", "processing"), ("Remediation Agent", "complete"),
       ("Synthesis Agent", "processing"), ("Synthesis Agent", "complete")] ∧
    (simulateSteps isImage p j).map (fun s => s.delay) =
      [1000, 3500, 4500, 7000, 7500, 9000, 9500, 10500, 11000, 13000] ∧
    (∀ s ∈ simulateSteps isImage p j, 1000 ≤ s.delay ∧ s.delay ≤ 13000) ∧
    (∀ (st : SessionState) (ts : String), st.demoStarted = true →
      (step (simulateSteps isImage p j) st (.demoTimer 9) ts).loading = false) := by
  refine ⟨rfl, rfl, ?_, ?_⟩
  · intro s hs
    have hd : s.delay ∈ (simulateSteps isImage p j).map (fun s => s.delay) :=
      List.mem_map_of_mem _ hs
    rw [show (simulateSteps isImage p j).map (fun s => s.delay) =
      [1000, 3500, 4500, 7000, 7500, 9000, 9500, 10500, 11000, 13000] from rfl] at hd
    simp only [List.mem_cons, List.not_mem_nil, or_false] at hd
    rcases hd with h | h | h | h | h | h | h | h | h | h <;> rw [h] <;> omega
  · intro st ts h
    simp only [step]
    rw [if_pos h]
    rfl

def stDemoW : SessionState :=
  { log := emptyLog, loading := true, error := none, expenseId := none,
    demoMode := true, hasRealUpdates := false, streamOpen := false,
    demoStarted := true, demoStartCount := 1 }

theorem c6_timeline_amended_witness :
    (step (simulateSteps false (simulatePlan demoFileA) 0) stDemoW (.demoTimer 9) "t").loading
      = false :=
  (c6_timeline_amended false (simulatePlan demoFileA) 0).2.2.2 stDemoW "t" rfl

/- ===== Claim C7 ===== -/

/-- Claim C7 is false on the code: an unclassified non-image file with no
Total match gets amount 0.00, not 45.00 — the category defaults (including
the 45.00 unclassified default) apply only to image files. -/
theorem c7_default_counterexample :
    (simulatePlan plainFile).amount = "0.00" ∧
    ¬((simulatePlan plainFile).amount = "45.00") := by
  decide

/-- The amount field of the classification mirrors the amount extraction of
simulateAgentUpdates. -/
lemma simulateClassify_amount (isImage : Bool) (fileName fileContent : String) :
    (simulateClassify isImage fileName fileContent).amount =
      match findTotalCap fileContent.data with
      | some cap => (⟨removeFirstComma cap⟩ : String)
      | none =>
        if isImage then
          if (simulateClassify isImage fileName fileContent).isStarbucks then "25.55"
          else if (simulateClassify isImage fileName fileContent).isUber then "39.53"
          else if (simulateClassify isImage fileName fileContent).isBar then "93.74"
          else if (simulateClassify isImage fileName fileContent).isStaples then "102.84"
          else "45.00"
        else "0.00" := rfl

/-- Claim C7 amended: the amount is the first Total match (first comma
removed) when one exists; otherwise, for image files only, a
category-specific fixed default applies (45.00 for unclassified images);
a non-image file with no match gets amount 0.00. -/
theorem c7_amount_amended (isImage : Bool) (fileName fileContent : String) :
    (∀ cap, findTotalCap fileContent.data = some cap →
      (simulateClassify isImage fileName fileContent).amount =
        (⟨removeFirstComma cap⟩ : String)) ∧
    (findTotalCap fileContent.data = none → isImage = true →
      (simulateClassify isImage fileName fileContent).amount =
        (if (simulateClassify isImage fileName fileContent).isStarbucks then "25.55"
         else if (simulateClassify isImage fileName fileContent).isUber then "39.53"
         else if (simulateClassify isImage fileName fileContent).isBar then "93.74"
         else if (simulateClassify isImage fileName fileContent).isStaples then "102.84"
         else "45.00")) ∧
    (findTotalCap fileContent.data = none → isImage = false →
      (simulateClassify isImage fileName fileContent).amount = "0.00") := by
  have key := simulateClassify_amount isImage fileName fileContent
  refine ⟨?_, ?_, ?_⟩
  · intro cap hc
    rw [key, hc]
  · intro hc himg
    rw [key, hc, himg, if_pos rfl]
  · intro hc himg
    rw [key, hc, himg, if_neg Bool.false_ne_true]

theorem c7_amount_amended_witness :
    (simulateClassify false "notes.txt" "no totals here").amount = "0.00" :=
  (c7_amount_amended false "notes.txt" "no totals here").2.2 (by decide) rfl

/- ===== Claim C8 ===== -/

/-- Claim C8 (Scenario B): for content containing Total: $42.10 and WINE,
the fallback uses amount 42.10 and merchant Bar/Restaurant, its policy
result is rejected with the policy-complete step citing the §6.1 alcohol
violation, and the final synthesis step is the REJECTED verdict for that
amount. -/
theorem c8_scenario_b (j : Fin 5) :
    (simulatePlan barFile).amount = "42.10" ∧
    (simulatePlan barFile).merchant = "Bar/Restaurant" ∧
    (simulatePlan barFile).policyResult = "rejected" ∧
    (simulateAgentUpdates barFile j).get? 3 =
      some ⟨"Policy Agent", "complete",
        "❌ **POLICY VIOLATION** - Alcoholic beverages detected. Per Policy §6.1: \"Alcohol NOT reimbursable under any circumstances\"",
        7000⟩ ∧
    (simulateAgentUpdates barFile j).get? 9 =
      some ⟨"Synthesis Agent", "complete",
        "❌ **REJECTED** - Policy violation detected. Amount: $42.10. Requires remediation.",
        13000⟩ :=
  ⟨by decide, by decide, by decide, rfl, rfl⟩

/- ===== Claim C9 ===== -/

/-- Claim C9: when the upload request fails (non-success HTTP status or a
transport error), the session ends in a terminal failure state — loading
cleared, error set — with exactly one error-status update in the log, and
the event stream is never opened. -/
theorem c9_upload_failure_terminal (r : UploadResult) (t0 t1 : String)
    (h : r.isFailure = true) :
    (handleSubmitModel r t0 t1).streamOpen = false ∧
    (handleSubmitModel r t0 t1).loading = false ∧
    (handleSubmitModel r t0 t1).error.isSome = true ∧
    ((handleSubmitModel r t0 t1).log.updates.filter
      (fun u => u.status == "error")).length = 1 := by
  cases r with
  | ok expId => simp [UploadResult.isFailure] at h
  | httpError s2 =>
    refine ⟨rfl, rfl, rfl, ?_⟩
    have hne : updateKey "System" "error" ("❌ Upload failed: " ++ s2) ∉
        (afterReset t0).log.emitted := by
      intro hm
      have hemit : (afterReset t0).log.emitted =
          [updateKey "System" "processing" "Uploading receipt to Cloud Storage..."] := rfl
      rw [hemit] at hm
      have hm2 := List.mem_singleton.mp hm
      have := updateKey_inj (by decide) (by decide) (by decide) (by decide) hm2
      exact absurd this.2.1 (by decide)
    show ((pushUpdate (afterReset t0).log "System" "error"
        ("❌ Upload failed: " ++ s2) t1).updates.filter (fun u => u.status == "error")).length = 1
    unfold pushUpdate
    rw [if_neg hne]
    rfl
  | transportError msg =>
    refine ⟨rfl, rfl, rfl, ?_⟩
    have hne : updateKey "System" "error" ("❌ " ++ msg) ∉ (afterReset t0).log.emitted := by
      intro hm
      have hemit : (afterReset t0).log.emitted =
          [updateKey "System" "processing" "Uploading receipt to Cloud Storage..."] := rfl
      rw [hemit] at hm
      have hm2 := List.mem_singleton.mp hm
      have := updateKey_inj (by decide) (by decide) (by decide) (by decide) hm2
      exact absurd this.2.1 (by decide)
    show ((pushUpdate (afterReset t0).log "System" "error"
        ("❌ " ++ msg) t1).updates.filter (fun u => u.status == "error")).length = 1
    unfold pushUpdate
    rw [if_neg hne]
    rfl

theorem c9_upload_failure_terminal_witness :
    (handleSubmitModel (.httpError "Internal Server Error") "t0" "t1").streamOpen = false ∧
    (handleSubmitModel (.httpError "Internal Server Error") "t0" "t1").loading = false ∧
    (handleSubmitModel (.httpError "Internal Server Error") "t0" "t1").error.isSome = true ∧
    ((handleSubmitModel (.httpError "Internal Server Error") "t0" "t1").log.updates.filter
      (fun u => u.status == "error")).length = 1 :=
  c9_upload_failure_terminal (.httpError "Internal Server Error") "t0" "t1" rfl

/- ===== Claim C10 ===== -/

/-- Claim C10: a well-formed frame whose stage status requires findings
(EXTRACTED, POLICY_CHECKED, ANOMALY_CHECKED, REMEDIATION_COMPLETE) but
whose payload lacks the corresponding findings object is ignored entirely:
the session state — log, mode flags, everything — is unchanged, so nothing
is appended and the frame does not mark the session live. -/
theorem c10_missing_findings_ignored (script : List DemoStep) (st : SessionState)
    (d : StreamData) (ts : String) (he : d.error = none)
    (h : (d.status = some "EXTRACTED" ∧ d.extraction = none) ∨
         (d.status = some "POLICY_CHECKED" ∧ d.policy = none) ∨
         (d.status = some "ANOMALY_CHECKED" ∧ d.anomaly = none) ∨
         (d.status = some "REMEDIATION_COMPLETE" ∧ d.remediation = none)) :
    step script st (.frame d) ts = st := by
  simp only [step]
  by_cases ho : st.streamOpen = true
  · rw [if_pos ho]
    rcases h with ⟨h1, h2⟩ | ⟨h1, h2⟩ | ⟨h1, h2⟩ | ⟨h1, h2⟩ <;>
      (simp only [handleFrame, he, h1, h2]; rfl)
  · rw [if_neg ho]

theorem c10_missing_findings_ignored_witness :
    step [] (afterUploadOk "exp-w10" "t0" "t1") (.frame extractedNoFindings) "t2" =
      afterUploadOk "exp-w10" "t0" "t1" :=
  c10_missing_findings_ignored [] (afterUploadOk "exp-w10" "t0" "t1") extractedNoFindings
    "t2" rfl (Or.inl ⟨rfl, rfl⟩)
